import Mathlib

/-!
# BorderCanvasModule.js — the render pipeline of `CanvasModule`

A shallow embedding of `src/BorderCanvasModule.js`.  The module builds one
`InteractionHandler` and one `GridVisualization` and exposes `render(data)`, which
issues a fixed sequence of method calls on the `GridVisualization`.

The embedding has three layers:

* the JavaScript data a snapshot is made of (`JSValue`), with the two language
  operations the source applies to it: property read `v[k]` and `for (k in v)`;
* the `GridVisualization` object, whose class is defined outside this file of the
  repository: it is a parameter (six methods acting on a canvas state, each of which
  may throw);
* `CanvasModule` itself: the constructor and `render` / `reset`, statement by statement.
-/

namespace BorderModel

/-! ## JavaScript values -/

/-- The data values a snapshot is made of (the values `JSON.parse` produces, plus
`undefined`).  Numbers are never inspected by `CanvasModule`; they carry an integer
payload.  A string is its sequence of UTF-16 code units.  Objects list their own
enumerable properties in creation order. -/
inductive JSValue where
  | undefined : JSValue
  | null : JSValue
  | bool (b : Bool) : JSValue
  | number (n : Int) : JSValue
  | string (units : List Nat) : JSValue
  | array (elems : List JSValue) : JSValue
  | object (props : List (String × JSValue)) : JSValue

/-- What a JavaScript computation throws. -/
inductive JSError where
  | typeError (msg : String) : JSError
  | thrown (msg : String) : JSError
  deriving DecidableEq

/-- Value of a decimal digit character. -/
def digitValue (c : Char) : Nat := c.toNat - 48

/-- The number written by a list of decimal digits. -/
def digitsToNat (cs : List Char) : Nat :=
  cs.foldl (fun acc c => 10 * acc + digitValue c) 0

/-- ECMAScript "array index": a property key that is the canonical decimal
spelling of an integer in `0 .. 2^32 - 2` (no sign, no leading zero). -/
def arrayIndex? (key : String) : Option Nat :=
  match key.toList with
  | [] => none
  | c :: cs =>
    if (c :: cs).all Char.isDigit && (c != '0' || cs.isEmpty)
        && decide (digitsToNat (c :: cs) < 2 ^ 32 - 1) then
      some (digitsToNat (c :: cs))
    else none

/-- Insert a key with numeric value `n` into a list sorted by numeric value. -/
def insertIndexKey (n : Nat) (key : String) : List (Nat × String) → List (Nat × String)
  | [] => [(n, key)]
  | (m, k) :: rest =>
    if n ≤ m then (n, key) :: (m, k) :: rest else (m, k) :: insertIndexKey n key rest

/-- The array-index keys among `keys`, in ascending numeric order. -/
def indexKeysAscending : List String → List (Nat × String)
  | [] => []
  | k :: rest =>
    match arrayIndex? k with
    | some n => insertIndexKey n k (indexKeysAscending rest)
    | none => indexKeysAscending rest

/-- Own property keys of an ordinary object in enumeration order
(`OrdinaryOwnPropertyKeys`): array-index keys first, ascending by numeric value, then
the remaining string keys in creation order. -/
def ownKeysInOrder (keys : List String) : List String :=
  (indexKeysAscending keys).map Prod.snd ++ keys.filter (fun k => (arrayIndex? k).isNone)

/-- The keys visited by `for (k in v)`.  `null` and `undefined` give no iteration (and
no error); primitives other than strings have no enumerable property; a string and an
array enumerate their indices; an object enumerates its own keys in
`ownKeysInOrder`.  The prototypes of plain data carry no enumerable property, so
nothing inherited is visited. -/
def forInKeys : JSValue → List String
  | .undefined => []
  | .null => []
  | .bool _ => []
  | .number _ => []
  | .string units => (List.range units.length).map toString
  | .array elems => (List.range elems.length).map toString
  | .object props => ownKeysInOrder (props.map Prod.fst)

/-- Property read `v[key]`.  Reading a property of `null` or `undefined` throws a
`TypeError`; a missing property reads as `undefined`.  Own properties only: the
inherited methods of the prototypes are not data and none of them is named `spheres`,
`cells` or `border`. -/
def getProp (v : JSValue) (key : String) : Except JSError JSValue :=
  match v with
  | .undefined => .error (.typeError ("Cannot read properties of undefined (reading " ++ key ++ ")"))
  | .null => .error (.typeError ("Cannot read properties of null (reading " ++ key ++ ")"))
  | .bool _ => .ok .undefined
  | .number _ => .ok .undefined
  | .string units =>
    match arrayIndex? key with
    | some i => .ok (((units.get? i).map fun u => JSValue.string [u]).getD .undefined)
    | none => .ok (if key = "length" then .number units.length else .undefined)
  | .array elems =>
    match arrayIndex? key with
    | some i => .ok ((elems.get? i).getD .undefined)
    | none => .ok (if key = "length" then .number elems.length else .undefined)
  | .object props => .ok ((props.lookup key).getD .undefined)

/-! ## The GridVisualization object -/

/-- One method call on the `GridVisualization`, with its argument. -/
inductive Call where
  | resetCanvas : Call
  | drawSpheres (spheres : JSValue) : Call
  | drawLayer (layer : JSValue) : Call
  | drawGridLines (color : String) : Call
  | drawBorder (border : JSValue) : Call
  | drawSphereNames (spheres : JSValue) : Call

/-- The `GridVisualization` instance `canvasDraw`.  Its class is not defined in
`BorderCanvasModule.js`, so it is a parameter: six methods acting on a canvas state
`σ`, each of which either returns or throws.  The methods act on the drawing surface
only. -/
structure GridVisualization (σ : Type) where
  resetCanvas : σ → Except JSError σ
  drawSpheres : JSValue → σ → Except JSError σ
  drawLayer : JSValue → σ → Except JSError σ
  drawGridLines : String → σ → Except JSError σ
  drawBorder : JSValue → σ → Except JSError σ
  drawSphereNames : JSValue → σ → Except JSError σ

/-- Dispatch of a call to the method it names. -/
def GridVisualization.perform {σ : Type} (gv : GridVisualization σ) : Call → σ → Except JSError σ
  | .resetCanvas => gv.resetCanvas
  | .drawSpheres v => gv.drawSpheres v
  | .drawLayer v => gv.drawLayer v
  | .drawGridLines c => gv.drawGridLines c
  | .drawBorder v => gv.drawBorder v
  | .drawSphereNames v => gv.drawSphereNames v

/-- The state one invocation of `render` runs in: the snapshot object its parameter
`data` refers to, the calls issued on `canvasDraw` so far (oldest first), and the
canvas state. -/
structure Frame (σ : Type) where
  data : JSValue
  calls : List Call
  canvas : σ

/-- A JavaScript statement sequence: it runs on a frame and either completes with a
value or throws; the frame as it stands at that point is kept in both cases. -/
def Eff (σ α : Type) : Type := Frame σ → Except JSError α × Frame σ

/-- Completion with a value. -/
def Eff.pure {σ α : Type} (a : α) : Eff σ α := fun f => (.ok a, f)

/-- Sequencing; an exception skips everything after it. -/
def Eff.bind {σ α β : Type} (m : Eff σ α) (k : α → Eff σ β) : Eff σ β := fun f =>
  match m f with
  | (.ok a, f1) => k a f1
  | (.error e, f1) => (.error e, f1)

/-- The expression `data[key]`. -/
def dataProp {σ : Type} (key : String) : Eff σ JSValue := fun f => (getProp f.data key, f)

/-- The expression `v[key]` for an already evaluated `v`. -/
def valueProp {σ : Type} (v : JSValue) (key : String) : Eff σ JSValue := fun f => (getProp v key, f)

/-- The method call `canvasDraw.m(arg)`: the call is recorded, then the method runs on
the canvas; when it throws, the canvas is left as it was. -/
def invoke {σ : Type} (gv : GridVisualization σ) (c : Call) : Eff σ Unit := fun f =>
  match gv.perform c f.canvas with
  | .ok s => (.ok (), { f with calls := f.calls ++ [c], canvas := s })
  | .error e => (.error e, { f with calls := f.calls ++ [c] })

/-! ## CanvasModule -/

/-- A `<canvas>` element built from `canvas_tag` (line 6): its `width` and `height`
attributes, and which of the two elements it is (`0` for `canvas`, line 12; `1` for
`interaction_canvas`, line 13). -/
structure CanvasElement (P : Type) where
  width : P
  height : P
  node : Nat

/-- The result of `element.getContext("2d")`: the drawing context of that element. -/
structure Context2D (P : Type) where
  element : CanvasElement P

/-- The expression `new InteractionHandler(a, b, c, d, ctx)`: the five arguments the
constructor receives, in order.  The class is defined outside this file. -/
structure NewInteractionHandler (P G : Type) where
  canvas_width : P
  canvas_height : P
  grid_width : G
  grid_height : G
  context : Context2D P

/-- The expression `new GridVisualization(a, b, c, d, ctx, handler)`: the six arguments
the constructor receives, in order.  The class is defined outside this file. -/
structure NewGridVisualization (P G : Type) where
  canvas_width : P
  canvas_height : P
  grid_width : G
  grid_height : G
  context : Context2D P
  interactionHandler : NewInteractionHandler P G

/-- The four dimension arguments an `InteractionHandler` was constructed with, in
argument order. -/
def NewInteractionHandler.dimensions {P G : Type} (ih : NewInteractionHandler P G) :
    P × P × G × G :=
  (ih.canvas_width, ih.canvas_height, ih.grid_width, ih.grid_height)

/-- The four dimension arguments a `GridVisualization` was constructed with, in
argument order. -/
def NewGridVisualization.dimensions {P G : Type} (gv : NewGridVisualization P G) :
    P × P × G × G :=
  (gv.canvas_width, gv.canvas_height, gv.grid_width, gv.grid_height)

/-- The local variables the constructor `CanvasModule(canvas_width, canvas_height,
grid_width, grid_height)` ends with (lines 1-26). -/
structure CanvasModule (P G : Type) where
  canvas : CanvasElement P
  interaction_canvas : CanvasElement P
  context : Context2D P
  interactionHandler : NewInteractionHandler P G
  canvasDraw : NewGridVisualization P G

/-- The constructor, lines 1-26: two canvas elements from the same tag, the context of
the first, then the `InteractionHandler` (on the context of the second element) and
the `GridVisualization` (on the context of the first, and given the handler). -/
def CanvasModule.new {P G : Type} (canvas_width canvas_height : P) (grid_width grid_height : G) :
    CanvasModule P G :=
  let canvas : CanvasElement P := { width := canvas_width, height := canvas_height, node := 0 }
  let interaction_canvas : CanvasElement P :=
    { width := canvas_width, height := canvas_height, node := 1 }
  let context : Context2D P := { element := canvas }
  let interactionHandler : NewInteractionHandler P G :=
    { canvas_width := canvas_width, canvas_height := canvas_height,
      grid_width := grid_width, grid_height := grid_height,
      context := { element := interaction_canvas } }
  let canvasDraw : NewGridVisualization P G :=
    { canvas_width := canvas_width, canvas_height := canvas_height,
      grid_width := grid_width, grid_height := grid_height,
      context := context, interactionHandler := interactionHandler }
  { canvas := canvas, interaction_canvas := interaction_canvas, context := context,
    interactionHandler := interactionHandler, canvasDraw := canvasDraw }

/-- Modelled from the spec: the forward transform of `GridVisualization`, whose class is
not in `BorderCanvasModule.js`.  Section 3: `cellWidth = pixelWidth / gridCols`,
`cellHeight = pixelHeight / gridRows`; section 4.1: the pixel rectangle of a cell is
`[col * cellWidth, row * cellHeight, cellWidth, cellHeight]`.  The centre of that
rectangle is returned.  Pixel quantities are exact rationals. -/
def cellToPixelCenter (gv : NewGridVisualization ℚ ℤ) (col row : ℤ) : ℚ × ℚ :=
  let cellWidth : ℚ := gv.canvas_width / gv.grid_width
  let cellHeight : ℚ := gv.canvas_height / gv.grid_height
  (col * cellWidth + cellWidth / 2, row * cellHeight + cellHeight / 2)

/-- Clamp of an index to `[0, count - 1]`. -/
def clampIndex (count i : ℤ) : ℤ := max 0 (min (count - 1) i)

/-- Modelled from the spec: the pixel-to-cell mapping of `InteractionHandler`, whose
class is not in `BorderCanvasModule.js`.  Section 4.2:
`col = floor(pixelX / cellWidth)`, `row = floor(pixelY / cellHeight)`, clamped to
`[0, gridCols-1] × [0, gridRows-1]`.  Pixel quantities are exact rationals. -/
def pixelToCell (ih : NewInteractionHandler ℚ ℤ) (pixel : ℚ × ℚ) : ℤ × ℤ :=
  let cellWidth : ℚ := ih.canvas_width / ih.grid_width
  let cellHeight : ℚ := ih.canvas_height / ih.grid_height
  (clampIndex ih.grid_width ⌊pixel.1 / cellWidth⌋,
   clampIndex ih.grid_height ⌊pixel.2 / cellHeight⌋)

/-- The body of `for (var layer in data["cells"])`, run over the keys the loop visits:
`canvasDraw.drawLayer(data["cells"][layer])`. -/
def renderLayers {σ : Type} (gv : GridVisualization σ) : List String → Eff σ Unit
  | [] => Eff.pure ()
  | layer :: rest =>
    Eff.bind (dataProp "cells") fun cells =>
    Eff.bind (valueProp cells layer) fun value =>
    Eff.bind (invoke gv (.drawLayer value)) fun _ =>
    renderLayers gv rest

/-- The body of `this.render = function(data) { ... }`, lines 28-36. -/
def renderBody {σ : Type} (gv : GridVisualization σ) : Eff σ Unit :=
  Eff.bind (invoke gv .resetCanvas) fun _ =>
  Eff.bind (dataProp "spheres") fun spheres =>
  Eff.bind (invoke gv (.drawSpheres spheres)) fun _ =>
  Eff.bind (dataProp "cells") fun cells =>
  Eff.bind (renderLayers gv (forInKeys cells)) fun _ =>
  Eff.bind (invoke gv (.drawGridLines "#eee")) fun _ =>
  Eff.bind (dataProp "border") fun border =>
  Eff.bind (invoke gv (.drawBorder border)) fun _ =>
  Eff.bind (dataProp "spheres") fun spheres2 =>
  invoke gv (.drawSphereNames spheres2)

/-- The call `render(data)` on a canvas in state `s`: the body run on a fresh frame. -/
def render {σ : Type} (gv : GridVisualization σ) (data : JSValue) (s : σ) :
    Except JSError Unit × Frame σ :=
  renderBody gv { data := data, calls := [], canvas := s }

/-- The body of `this.reset = function() { ... }`, lines 38-40. -/
def reset {σ : Type} (gv : GridVisualization σ) (s : σ) : Except JSError Unit × Frame σ :=
  invoke gv .resetCanvas { data := .undefined, calls := [], canvas := s }

/-- The calls `render(data)` issues on `canvasDraw`, in order. -/
def renderCalls {σ : Type} (gv : GridVisualization σ) (data : JSValue) (s : σ) : List Call :=
  (render gv data s).2.calls

/-- Whether `render(data)` returns normally (does not throw). -/
def renderReturns {σ : Type} (gv : GridVisualization σ) (data : JSValue) (s : σ) : Bool :=
  match (render gv data s).1 with
  | .ok _ => true
  | .error _ => false

/-! ## Vocabulary for statements about a render -/

/-- Whether a value is `null` or `undefined`. -/
def JSValue.isNullish : JSValue → Bool
  | .undefined => true
  | .null => true
  | _ => false

/-- The six methods of `canvasDraw`. -/
inductive Method where
  | resetCanvas | drawSpheres | drawLayer | drawGridLines | drawBorder | drawSphereNames
  deriving DecidableEq

/-- The method a call invokes. -/
def Call.method : Call → Method
  | .resetCanvas => .resetCanvas
  | .drawSpheres _ => .drawSpheres
  | .drawLayer _ => .drawLayer
  | .drawGridLines _ => .drawGridLines
  | .drawBorder _ => .drawBorder
  | .drawSphereNames _ => .drawSphereNames

/-- In the call sequence `t`, every call of method `first` comes before every call of
method `second`. -/
def Precedes (first second : Method) (t : List Call) : Prop :=
  ∀ (i j : Nat) (a b : Call), t[i]? = some a → t[j]? = some b →
    a.method = first → b.method = second → i < j

/-- The arguments of the `drawLayer` calls of `t`, in call order. -/
def layerArgs (t : List Call) : List JSValue :=
  t.filterMap fun c => match c with
    | .drawLayer v => some v
    | _ => none

/-- The arguments of the `drawBorder` calls of `t`, in call order. -/
def borderArgs (t : List Call) : List JSValue :=
  t.filterMap fun c => match c with
    | .drawBorder v => some v
    | _ => none

/-- Number of calls of method `m` in `t`. -/
def callCount (m : Method) (t : List Call) : Nat :=
  t.countP fun c => decide (c.method = m)

/-- The value `v[key]` reads as, `undefined` where the read throws. -/
def propOrUndefined (v : JSValue) (key : String) : JSValue :=
  match getProp v key with
  | .ok x => x
  | .error _ => .undefined

/-- The layers of a snapshot as `for (var layer in data["cells"])` visits them: the
values `data["cells"][layer]`, in the order of the keys. -/
def layerValues (data : JSValue) : List JSValue :=
  (forInKeys (propOrUndefined data "cells")).map fun layer =>
    propOrUndefined (propOrUndefined data "cells") layer

/-- The calls of a complete frame drawn from `data`, in the order of the statements
of `render`. -/
def frameCalls (data : JSValue) : List Call :=
  [.resetCanvas, .drawSpheres (propOrUndefined data "spheres")]
    ++ (layerValues data).map Call.drawLayer
    ++ [.drawGridLines "#eee", .drawBorder (propOrUndefined data "border"),
        .drawSphereNames (propOrUndefined data "spheres")]

/-- No call of `cs` throws on `gv`, whatever the canvas state. -/
def Succeeds {σ : Type} (gv : GridVisualization σ) (cs : List Call) : Prop :=
  ∀ c ∈ cs, ∀ s : σ, ∃ s2 : σ, gv.perform c s = .ok s2

/-- Running the calls `cs` one after the other. -/
def invokeAll {σ : Type} (gv : GridVisualization σ) : List Call → Eff σ Unit
  | [] => Eff.pure ()
  | c :: cs => Eff.bind (invoke gv c) fun _ => invokeAll gv cs

/-- The canvas state after the calls `cs` have run one after the other from `s`, or
the error of the first of them that throws. -/
def runCanvas {σ : Type} (gv : GridVisualization σ) : List Call → σ → Except JSError σ
  | [], s => .ok s
  | c :: cs, s =>
    match gv.perform c s with
    | .ok s1 => runCanvas gv cs s1
    | .error e => .error e

/-- A `GridVisualization` that never throws and keeps no state. -/
def recorder : GridVisualization Unit where
  resetCanvas := fun s => .ok s
  drawSpheres := fun _ s => .ok s
  drawLayer := fun _ s => .ok s
  drawGridLines := fun _ s => .ok s
  drawBorder := fun _ s => .ok s
  drawSphereNames := fun _ s => .ok s

/-- A `GridVisualization` whose `drawLayer` throws on a layer that is `null` or
`undefined` and whose other methods never throw. -/
def strictLayers : GridVisualization Unit where
  resetCanvas := fun s => .ok s
  drawSpheres := fun _ s => .ok s
  drawLayer := fun v s => if v.isNullish then .error (.thrown "layer is not iterable") else .ok s
  drawGridLines := fun _ s => .ok s
  drawBorder := fun _ s => .ok s
  drawSphereNames := fun _ s => .ok s

/-- Position of a method in the body of `render`: the line order of its statement
(`resetCanvas` line 29, `drawSpheres` 30, `drawLayer` 32, `drawGridLines` 33,
`drawBorder` 34, `drawSphereNames` 35). -/
def codeStage : Method → Nat
  | .resetCanvas => 0
  | .drawSpheres => 1
  | .drawLayer => 2
  | .drawGridLines => 3
  | .drawBorder => 4
  | .drawSphereNames => 5

/-- A snapshot with one sphere (named `A`, code unit 65), two named layers and a
border. -/
def sampleSnapshot : JSValue :=
  .object [
    ("spheres", .array [.object [("x", .number 2), ("y", .number 3), ("name", .string [65])]]),
    ("cells", .object [("heat", .array [.number 1]), ("occupancy", .array [.number 2])]),
    ("border", .array [.number 0, .number 0, .number 10, .number 10])]

/-- A snapshot whose first layer is `null` (malformed) and whose second layer is valid. -/
def brokenSnapshot : JSValue :=
  .object [
    ("spheres", .array []),
    ("cells", .object [("heat", .null), ("occupancy", .array [.number 2])]),
    ("border", .array [.number 0, .number 0, .number 10, .number 10])]

/-- A snapshot whose caller lists the layer named `terrain` first and the layer named
`0` second. -/
def numberedLayers : JSValue :=
  .object [
    ("spheres", .array []),
    ("cells", .object [("terrain", .array [.number 1]), ("0", .array [.number 2])]),
    ("border", .array [])]

/-! ## How `render` runs -/

theorem getProp_ok_of_not_nullish (v : JSValue) (key : String) (h : v.isNullish = false) :
    getProp v key = .ok (propOrUndefined v key) := by
  cases v <;> simp [JSValue.isNullish] at h <;> simp only [propOrUndefined, getProp] <;>
    (try split) <;> rfl

theorem forInKeys_nullish (v : JSValue) (h : v.isNullish = true) : forInKeys v = [] := by
  cases v <;> simp [JSValue.isNullish] at h <;> rfl

theorem invoke_data {σ : Type} (gv : GridVisualization σ) (c : Call) (f : Frame σ) :
    (invoke gv c f).2.data = f.data := by
  unfold invoke
  split <;> rfl

theorem renderLayers_eq {σ : Type} (gv : GridVisualization σ) (keys : List String)
    (f : Frame σ) (hd : f.data.isNullish = false)
    (hk : ∀ k ∈ keys, (propOrUndefined f.data "cells").isNullish = false) :
    renderLayers gv keys f =
      invokeAll gv (keys.map fun k =>
        Call.drawLayer (propOrUndefined (propOrUndefined f.data "cells") k)) f := by
  induction keys generalizing f with
  | nil => rfl
  | cons k rest ih =>
    have hc := hk k (List.mem_cons_self _ _)
    simp only [renderLayers, List.map_cons, invokeAll, Eff.bind, dataProp, valueProp,
      getProp_ok_of_not_nullish _ _ hd, getProp_ok_of_not_nullish _ _ hc]
    have hdata := invoke_data gv (.drawLayer (propOrUndefined (propOrUndefined f.data "cells") k)) f
    rcases hinv : invoke gv (.drawLayer (propOrUndefined (propOrUndefined f.data "cells") k)) f
      with ⟨r, f1⟩
    rw [hinv] at hdata
    simp only at hdata
    cases r with
    | error e => rfl
    | ok u =>
      simp only
      rw [ih f1 (by rw [hdata]; exact hd)
        (by intro k2 hk2; rw [hdata]; exact hk k2 (List.mem_cons_of_mem _ hk2)), hdata]

theorem invokeAll_data {σ : Type} (gv : GridVisualization σ) (cs : List Call) (f : Frame σ) :
    (invokeAll gv cs f).2.data = f.data := by
  induction cs generalizing f with
  | nil => rfl
  | cons c rest ih =>
    have hdata := invoke_data gv c f
    simp only [invokeAll, Eff.bind]
    rcases hinv : invoke gv c f with ⟨r, f1⟩
    rw [hinv] at hdata
    cases r with
    | error e => exact hdata
    | ok u => simp only; rw [ih f1]; exact hdata

theorem invokeAll_append {σ : Type} (gv : GridVisualization σ) (as bs : List Call)
    (f : Frame σ) :
    invokeAll gv (as ++ bs) f = Eff.bind (invokeAll gv as) (fun _ => invokeAll gv bs) f := by
  induction as generalizing f with
  | nil => rfl
  | cons c rest ih =>
    simp only [List.cons_append, invokeAll, Eff.bind]
    rcases invoke gv c f with ⟨r, f1⟩
    cases r with
    | error e => rfl
    | ok u => exact ih f1

/-- The calls issued by a run of `cs` are the calls before it followed by a prefix of `cs`. -/
theorem invokeAll_issued {σ : Type} (gv : GridVisualization σ) (cs : List Call) (f : Frame σ) :
    ∃ done, done <+: cs ∧ (invokeAll gv cs f).2.calls = f.calls ++ done := by
  induction cs generalizing f with
  | nil => exact ⟨[], List.prefix_refl _, by simp [invokeAll, Eff.pure]⟩
  | cons c rest ih =>
    simp only [invokeAll, Eff.bind, invoke]
    cases hp : gv.perform c f.canvas with
    | error e => exact ⟨[c], by simp, rfl⟩
    | ok s1 =>
      simp only
      obtain ⟨done, hpre, hcalls⟩ := ih { f with calls := f.calls ++ [c], canvas := s1 }
      refine ⟨c :: done, ?_, ?_⟩
      · exact (List.prefix_cons_inj c).mpr hpre
      · rw [hcalls]; simp

/-- The first call of a run is always issued. -/
theorem invokeAll_cons_issued {σ : Type} (gv : GridVisualization σ) (c : Call) (cs : List Call)
    (f : Frame σ) :
    ∃ done, done <+: cs ∧ (invokeAll gv (c :: cs) f).2.calls = f.calls ++ c :: done := by
  simp only [invokeAll, Eff.bind, invoke]
  cases hp : gv.perform c f.canvas with
  | error e => exact ⟨[], List.nil_prefix, rfl⟩
  | ok s1 =>
    simp only
    obtain ⟨done, hpre, hcalls⟩ :=
      invokeAll_issued gv cs { f with calls := f.calls ++ [c], canvas := s1 }
    exact ⟨done, hpre, by rw [hcalls]; simp⟩

/-- A run that completes has issued every call. -/
theorem invokeAll_ok_calls {σ : Type} (gv : GridVisualization σ) (cs : List Call) (f : Frame σ)
    (u : Unit) (h : (invokeAll gv cs f).1 = .ok u) :
    (invokeAll gv cs f).2.calls = f.calls ++ cs := by
  induction cs generalizing f with
  | nil => simp [invokeAll, Eff.pure]
  | cons c rest ih =>
    simp only [invokeAll, Eff.bind, invoke] at h ⊢
    cases hp : gv.perform c f.canvas with
    | error e => rw [hp] at h; simp at h
    | ok s1 =>
      rw [hp] at h
      simp only at h ⊢
      rw [ih _ h]; simp

/-- A run of calls none of which throws completes. -/
theorem invokeAll_succeeds {σ : Type} (gv : GridVisualization σ) (cs : List Call) (f : Frame σ)
    (h : Succeeds gv cs) : (invokeAll gv cs f).1 = .ok () := by
  induction cs generalizing f with
  | nil => rfl
  | cons c rest ih =>
    simp only [invokeAll, Eff.bind, invoke]
    obtain ⟨s1, hs1⟩ := h c (List.mem_cons_self _ _) f.canvas
    rw [hs1]
    exact ih _ (fun d hd => h d (List.mem_cons_of_mem _ hd))

/-- A run that throws stops at the call that threw: that call is the last one issued,
and the error is the one its method raised. -/
theorem invokeAll_error {σ : Type} (gv : GridVisualization σ) (cs : List Call) (f : Frame σ)
    (e : JSError) (h : (invokeAll gv cs f).1 = .error e) :
    ∃ pre c post, cs = pre ++ c :: post ∧
      (invokeAll gv cs f).2.calls = f.calls ++ pre ++ [c] ∧
      gv.perform c (invokeAll gv cs f).2.canvas = .error e := by
  induction cs generalizing f with
  | nil => simp [invokeAll, Eff.pure] at h
  | cons c rest ih =>
    simp only [invokeAll, Eff.bind, invoke] at h ⊢
    cases hp : gv.perform c f.canvas with
    | error e2 =>
      rw [hp] at h
      simp only at h ⊢
      refine ⟨[], c, rest, rfl, by simp, ?_⟩
      rw [hp]; cases h; rfl
    | ok s1 =>
      rw [hp] at h
      simp only at h ⊢
      obtain ⟨pre, d, post, hcs, hcalls, herr⟩ := ih _ h
      refine ⟨c :: pre, d, post, by rw [hcs]; rfl, ?_, herr⟩
      rw [hcalls]; simp

/-- A run whose calls all return ends in the canvas state `runCanvas` computes. -/
theorem invokeAll_of_runCanvas_ok {σ : Type} (gv : GridVisualization σ) (cs : List Call)
    (f : Frame σ) (s1 : σ) (h : runCanvas gv cs f.canvas = .ok s1) :
    invokeAll gv cs f = (.ok (), { f with calls := f.calls ++ cs, canvas := s1 }) := by
  induction cs generalizing f with
  | nil =>
    simp only [runCanvas] at h
    cases h
    simp [invokeAll, Eff.pure]
  | cons c rest ih =>
    simp only [runCanvas] at h
    simp only [invokeAll, Eff.bind, invoke]
    cases hp : gv.perform c f.canvas with
    | error e => rw [hp] at h; cases h
    | ok s2 =>
      rw [hp] at h
      simp only at h ⊢
      rw [ih { f with calls := f.calls ++ [c], canvas := s2 } h]
      simp

/-- A run stops at the first call that throws, with the error of that call. -/
theorem invokeAll_stops {σ : Type} (gv : GridVisualization σ) (pre post : List Call) (c : Call)
    (f : Frame σ) (s1 : σ) (e : JSError) (hpre : runCanvas gv pre f.canvas = .ok s1)
    (hc : gv.perform c s1 = .error e) :
    invokeAll gv (pre ++ c :: post) f =
      (.error e, { f with calls := f.calls ++ pre ++ [c], canvas := s1 }) := by
  rw [invokeAll_append]
  simp only [Eff.bind, invokeAll_of_runCanvas_ok gv pre f s1 hpre, invokeAll, invoke, hc]

theorem bind_invoke_congr {σ α : Type} (gv : GridVisualization σ) (c : Call)
    (k1 k2 : Unit → Eff σ α) (f : Frame σ)
    (h : ∀ f1 : Frame σ, f1.data = f.data → k1 () f1 = k2 () f1) :
    Eff.bind (invoke gv c) k1 f = Eff.bind (invoke gv c) k2 f := by
  have hdata := invoke_data gv c f
  simp only [Eff.bind]
  rcases hinv : invoke gv c f with ⟨r, f1⟩
  rw [hinv] at hdata
  cases r with
  | error e => rfl
  | ok u => exact h f1 hdata

theorem bind_invokeAll_congr {σ α : Type} (gv : GridVisualization σ) (cs : List Call)
    (k1 k2 : Unit → Eff σ α) (f : Frame σ)
    (h : ∀ f1 : Frame σ, f1.data = f.data → k1 () f1 = k2 () f1) :
    Eff.bind (invokeAll gv cs) k1 f = Eff.bind (invokeAll gv cs) k2 f := by
  have hdata := invokeAll_data gv cs f
  simp only [Eff.bind]
  rcases hinv : invokeAll gv cs f with ⟨r, f1⟩
  rw [hinv] at hdata
  cases r with
  | error e => rfl
  | ok u => exact h f1 hdata

theorem renderBody_eq_aux {σ : Type} (gv : GridVisualization σ) (d : JSValue)
    (hd : d.isNullish = false) (f : Frame σ) (hf : f.data = d) :
    renderBody gv f = invokeAll gv (frameCalls d) f := by
  have hframe : frameCalls d = .resetCanvas :: .drawSpheres (propOrUndefined d "spheres") ::
      ((layerValues d).map Call.drawLayer ++
        [.drawGridLines "#eee", .drawBorder (propOrUndefined d "border"),
         .drawSphereNames (propOrUndefined d "spheres")]) := by
    simp [frameCalls]
  rw [hframe]
  unfold renderBody
  simp only [invokeAll]
  apply bind_invoke_congr
  intro f1 h1
  have e1 : f1.data = d := h1.trans hf
  simp only [Eff.bind, dataProp, e1, getProp_ok_of_not_nullish d _ hd]
  apply bind_invoke_congr
  intro f2 h2
  have e2 : f2.data = d := h2.trans e1
  simp only [e2, getProp_ok_of_not_nullish d _ hd]
  have hl : renderLayers gv (forInKeys (propOrUndefined d "cells")) f2 =
      invokeAll gv ((layerValues d).map Call.drawLayer) f2 := by
    rw [renderLayers_eq gv _ f2 (by rw [e2]; exact hd)]
    · rw [e2]; simp [layerValues, List.map_map, Function.comp_def]
    · intro k hk
      rw [e2]
      cases hn : (propOrUndefined d "cells").isNullish with
      | false => rfl
      | true => rw [forInKeys_nullish _ hn] at hk; simp at hk
  rw [invokeAll_append, hl]
  have hd3 := invokeAll_data gv ((layerValues d).map Call.drawLayer) f2
  simp only [Eff.bind, invokeAll]
  rcases h3 : invokeAll gv ((layerValues d).map Call.drawLayer) f2 with ⟨r3, f3⟩
  rw [h3] at hd3
  cases r3 with
  | error e => rfl
  | ok u3 =>
    simp only
    have hd4 := invoke_data gv (.drawGridLines "#eee") f3
    rcases h4 : invoke gv (.drawGridLines "#eee") f3 with ⟨r4, f4⟩
    rw [h4] at hd4
    cases r4 with
    | error e => rfl
    | ok u4 =>
      have e4 : f4.data = d := hd4.trans (hd3.trans e2)
      simp only [e4, getProp_ok_of_not_nullish d _ hd]
      have hd5 := invoke_data gv (.drawBorder (propOrUndefined d "border")) f4
      rcases h5 : invoke gv (.drawBorder (propOrUndefined d "border")) f4 with ⟨r5, f5⟩
      rw [h5] at hd5
      cases r5 with
      | error e => rfl
      | ok u5 =>
        have e5 : f5.data = d := hd5.trans e4
        simp only [e5, getProp_ok_of_not_nullish d _ hd]
        rcases invoke gv (.drawSphereNames (propOrUndefined d "spheres")) f5 with ⟨r6, f6⟩
        cases r6 <;> rfl

/-- With a snapshot that is neither `null` nor `undefined`, the body of `render` is the
run of the calls of the frame. -/
theorem renderBody_eq {σ : Type} (gv : GridVisualization σ) (f : Frame σ)
    (hd : f.data.isNullish = false) :
    renderBody gv f = invokeAll gv (frameCalls f.data) f :=
  renderBody_eq_aux gv f.data hd f rfl

/-- Shape of a frame: `resetCanvas`, `drawSpheres`, the layers, then the three closing calls. -/
theorem frameCalls_cons (d : JSValue) :
    frameCalls d = .resetCanvas :: .drawSpheres (propOrUndefined d "spheres") ::
      ((layerValues d).map Call.drawLayer ++
        [.drawGridLines "#eee", .drawBorder (propOrUndefined d "border"),
         .drawSphereNames (propOrUndefined d "spheres")]) := by
  simp [frameCalls]

/-- On `null` or `undefined`, `render` calls `resetCanvas` and then throws. -/
theorem render_nullish {σ : Type} (gv : GridVisualization σ) (data : JSValue) (s : σ)
    (hd : data.isNullish = true) :
    renderCalls gv data s = [.resetCanvas] ∧ renderReturns gv data s = false := by
  have hg : ∃ e, getProp data "spheres" = .error e := by
    cases data <;> simp [JSValue.isNullish] at hd <;> exact ⟨_, rfl⟩
  obtain ⟨e, he⟩ := hg
  simp only [renderCalls, renderReturns, render, renderBody, Eff.bind, invoke, dataProp]
  cases gv.perform .resetCanvas s with
  | error e2 => simp
  | ok s1 => simp [he]

/-- A render of a snapshot that is neither `null` nor `undefined` is the run of its frame. -/
theorem render_eq {σ : Type} (gv : GridVisualization σ) (data : JSValue) (s : σ)
    (hd : data.isNullish = false) :
    render gv data s = invokeAll gv (frameCalls data) { data := data, calls := [], canvas := s } :=
  renderBody_eq gv { data := data, calls := [], canvas := s } hd

/-- The calls of a render are always a prefix of the calls of the frame. -/
theorem renderCalls_initial {σ : Type} (gv : GridVisualization σ) (data : JSValue) (s : σ) :
    renderCalls gv data s <+: frameCalls data := by
  cases hd : data.isNullish with
  | true =>
    rw [(render_nullish gv data s hd).1, frameCalls_cons]
    exact ⟨_, rfl⟩
  | false =>
    obtain ⟨done, hpre, hcalls⟩ :=
      invokeAll_issued gv (frameCalls data) { data := data, calls := [], canvas := s }
    simp only [renderCalls, render_eq gv data s hd]
    rw [hcalls]
    simpa using hpre

/-- A render none of whose calls throws returns, having issued the whole frame. -/
theorem render_complete {σ : Type} (gv : GridVisualization σ) (data : JSValue) (s : σ)
    (hd : data.isNullish = false) (hok : Succeeds gv (frameCalls data)) :
    renderReturns gv data s = true ∧ renderCalls gv data s = frameCalls data := by
  have h1 := invokeAll_succeeds gv (frameCalls data)
    { data := data, calls := [], canvas := s } hok
  have h2 := invokeAll_ok_calls gv (frameCalls data)
    { data := data, calls := [], canvas := s } () h1
  simp only [renderReturns, renderCalls, render_eq gv data s hd]
  rw [h1, h2]
  simp

/-- The calls of a frame are sorted by the position of their statement in `render`. -/
theorem frameCalls_sorted (d : JSValue) :
    (frameCalls d).Pairwise fun a b => codeStage a.method ≤ codeStage b.method := by
  rw [frameCalls_cons]
  simp only [List.pairwise_cons, List.pairwise_append, List.pairwise_map, List.mem_cons,
    List.mem_append, List.mem_map, List.mem_singleton]
  refine ⟨?_, ?_, ?_, ?_, ?_⟩
  · rintro b (rfl | ⟨v, _, rfl⟩ | rfl | rfl | rfl | h) <;>
      first | (cases h) | (simp [Call.method, codeStage])
  · rintro b (⟨v, _, rfl⟩ | rfl | rfl | rfl | h) <;>
      first | (cases h) | (simp [Call.method, codeStage])
  · exact List.pairwise_of_forall (fun _ _ => by simp [Call.method, codeStage])
  · simp [Call.method, codeStage]
  · rintro a ⟨v, _, rfl⟩ b (rfl | rfl | rfl | h) <;>
      first | (cases h) | (simp [Call.method, codeStage])

theorem precedes_of_sorted (t : List Call)
    (ht : t.Pairwise fun a b => codeStage a.method ≤ codeStage b.method)
    (first second : Method) (h : codeStage first < codeStage second) :
    Precedes first second t := by
  intro i j a b hi hj ha hb
  by_contra hij
  obtain ⟨hil, hia⟩ := List.getElem?_eq_some.mp hi
  obtain ⟨hjl, hjb⟩ := List.getElem?_eq_some.mp hj
  rcases Nat.lt_or_ge j i with hlt | hge
  · have := (List.pairwise_iff_getElem.mp ht) j i hjl hil hlt
    rw [hia, hjb, ha, hb] at this
    omega
  · have hij2 : i = j := by omega
    subst hij2
    rw [hi] at hj
    cases hj
    rw [ha] at hb
    rw [hb] at h
    omega

/-- Any two methods whose statements come in a given order in `render` are called in
that order, in every render. -/
theorem render_precedes {σ : Type} (gv : GridVisualization σ) (data : JSValue) (s : σ)
    (first second : Method) (h : codeStage first < codeStage second) :
    Precedes first second (renderCalls gv data s) :=
  precedes_of_sorted _
    ((frameCalls_sorted data).sublist (renderCalls_initial gv data s).sublist) first second h

/-- If a prefix of `xs ++ c0 :: ys` holds a call of a method that `xs` and `ys` do not
call, that call is `c0`, everything of `xs` comes before it and what follows is a
prefix of `ys`. -/
theorem prefix_split_unique (m : Method) (xs ys : List Call) (c0 : Call)
    (hx : ∀ c ∈ xs, c.method ≠ m) (hy : ∀ c ∈ ys, c.method ≠ m)
    (t pre post : List Call) (c : Call) (ht : t <+: xs ++ c0 :: ys)
    (hsplit : t = pre ++ c :: post) (hc : c.method = m) :
    pre = xs ∧ c = c0 ∧ post <+: ys := by
  obtain ⟨r, hr⟩ := ht
  subst hsplit
  induction xs generalizing pre with
  | nil =>
    cases pre with
    | nil =>
      simp only [List.nil_append, List.cons_append, List.cons.injEq] at hr
      exact ⟨rfl, hr.1, ⟨r, hr.2⟩⟩
    | cons p pre2 =>
      simp only [List.nil_append, List.cons_append, List.append_assoc, List.cons.injEq] at hr
      exact absurd hc (hy c (by rw [← hr.2]; simp))
  | cons x xs2 ih =>
    cases pre with
    | nil =>
      simp only [List.nil_append, List.cons_append, List.cons.injEq] at hr
      exact absurd hc (by rw [hr.1]; exact hx x (List.mem_cons_self _ _))
    | cons p pre2 =>
      simp only [List.cons_append, List.append_assoc, List.cons.injEq] at hr
      obtain ⟨h1, h2, h3⟩ := ih (fun c hc2 => hx c (List.mem_cons_of_mem _ hc2)) pre2
        (by simpa using hr.2)
      exact ⟨by rw [hr.1, h1], h2, h3⟩

/-- Every render starts with `resetCanvas`; what follows is a prefix of the rest of the
frame. -/
theorem renderCalls_head {σ : Type} (gv : GridVisualization σ) (data : JSValue) (s : σ) :
    ∃ rest, renderCalls gv data s = .resetCanvas :: rest ∧
      rest <+: .drawSpheres (propOrUndefined data "spheres") ::
        ((layerValues data).map Call.drawLayer ++
          [.drawGridLines "#eee", .drawBorder (propOrUndefined data "border"),
           .drawSphereNames (propOrUndefined data "spheres")]) := by
  have hpre := renderCalls_initial gv data s
  rw [frameCalls_cons] at hpre
  cases ht : renderCalls gv data s with
  | nil =>
    exfalso
    cases hd : data.isNullish with
    | true => rw [(render_nullish gv data s hd).1] at ht; cases ht
    | false =>
      obtain ⟨done, _, hcalls⟩ := invokeAll_cons_issued gv .resetCanvas
        (.drawSpheres (propOrUndefined data "spheres") ::
          ((layerValues data).map Call.drawLayer ++
            [.drawGridLines "#eee", .drawBorder (propOrUndefined data "border"),
             .drawSphereNames (propOrUndefined data "spheres")]))
        { data := data, calls := [], canvas := s }
      rw [← frameCalls_cons, ← render_eq gv data s hd] at hcalls
      rw [renderCalls, hcalls] at ht
      simp at ht
  | cons c rest =>
    rw [ht] at hpre
    obtain ⟨r, hr⟩ := hpre
    simp only [List.cons_append, List.cons.injEq] at hr
    refine ⟨rest, by rw [hr.1], ⟨r, hr.2⟩⟩

theorem layerArgs_map_drawLayer (vs : List JSValue) : layerArgs (vs.map Call.drawLayer) = vs := by
  induction vs with
  | nil => rfl
  | cons v rest ih =>
    simp only [layerArgs, List.map_cons, List.filterMap_cons] at ih ⊢
    rw [ih]

theorem layerArgs_append (xs ys : List Call) : layerArgs (xs ++ ys) = layerArgs xs ++ layerArgs ys := by
  simp [layerArgs, List.filterMap_append]

/-- Shape of a frame around its `drawGridLines` call. -/
theorem frameCalls_around_grid (d : JSValue) :
    frameCalls d = (.resetCanvas :: .drawSpheres (propOrUndefined d "spheres") ::
        (layerValues d).map Call.drawLayer) ++ .drawGridLines "#eee" ::
      [.drawBorder (propOrUndefined d "border"), .drawSphereNames (propOrUndefined d "spheres")] := by
  simp [frameCalls]

/-- Shape of a frame around its `drawBorder` call. -/
theorem frameCalls_around_border (d : JSValue) :
    frameCalls d = (.resetCanvas :: .drawSpheres (propOrUndefined d "spheres") ::
        ((layerValues d).map Call.drawLayer ++ [.drawGridLines "#eee"])) ++
      .drawBorder (propOrUndefined d "border") ::
      [.drawSphereNames (propOrUndefined d "spheres")] := by
  simp [frameCalls]

/-- Shape of a frame around its `drawSphereNames` call. -/
theorem frameCalls_around_names (d : JSValue) :
    frameCalls d = (.resetCanvas :: .drawSpheres (propOrUndefined d "spheres") ::
        ((layerValues d).map Call.drawLayer ++
          [.drawGridLines "#eee", .drawBorder (propOrUndefined d "border")])) ++
      .drawSphereNames (propOrUndefined d "spheres") :: [] := by
  simp [frameCalls]

theorem callCount_append (m : Method) (xs ys : List Call) :
    callCount m (xs ++ ys) = callCount m xs + callCount m ys := by
  simp [callCount, List.countP_append]

theorem callCount_map_drawLayer (m : Method) (vs : List JSValue) :
    callCount m (vs.map Call.drawLayer) = if m = .drawLayer then vs.length else 0 := by
  induction vs with
  | nil => simp [callCount]
  | cons v rest ih =>
    simp only [callCount, List.map_cons, List.countP_cons, Call.method, List.length_cons] at ih ⊢
    rw [ih]
    cases m <;> simp

/-- Number of calls of each method in a frame. -/
theorem callCount_frameCalls (m : Method) (d : JSValue) :
    callCount m (frameCalls d) = if m = .drawLayer then (layerValues d).length else 1 := by
  rw [frameCalls, callCount_append, callCount_append, callCount_map_drawLayer]
  cases m <;> simp [callCount, Call.method, List.countP_cons]

theorem recorder_succeeds (cs : List Call) : Succeeds recorder cs := by
  intro c _ s
  exact ⟨s, by cases c <;> rfl⟩

/-- What `render` does with `brokenSnapshot` on a canvas whose `drawLayer` rejects a
`null` layer. -/
theorem render_broken :
    renderReturns strictLayers brokenSnapshot () = false ∧
    renderCalls strictLayers brokenSnapshot () =
      [.resetCanvas, .drawSpheres (.array []), .drawLayer .null] :=
  ⟨rfl, rfl⟩

theorem borderArgs_frameCalls (d : JSValue) :
    borderArgs (frameCalls d) = [propOrUndefined d "border"] := by
  have h : ∀ vs : List JSValue, borderArgs (vs.map Call.drawLayer) = [] := by
    intro vs
    induction vs with
    | nil => rfl
    | cons v rest ih =>
      simp only [borderArgs, List.map_cons, List.filterMap_cons] at ih ⊢
      exact ih
  have happ : ∀ xs ys : List Call, borderArgs (xs ++ ys) = borderArgs xs ++ borderArgs ys := by
    intro xs ys
    simp [borderArgs, List.filterMap_append]
  rw [frameCalls, happ, happ, h]
  rfl

theorem not_nullish_of_getProp_ok (v x : JSValue) (key : String) (h : getProp v key = .ok x) :
    v.isNullish = false := by
  cases v <;> first | rfl | (simp [getProp] at h)

/-- Reading every key of a list of properties with distinct keys gives the values in
the order of the list. -/
theorem lookup_keys_of_nodup (props : List (String × JSValue))
    (hnodup : (props.map Prod.fst).Nodup) :
    (props.map Prod.fst).map (fun k => (props.lookup k).getD JSValue.undefined)
      = props.map Prod.snd := by
  induction props with
  | nil => rfl
  | cons p rest ih =>
    obtain ⟨k, v⟩ := p
    simp only [List.map_cons, List.nodup_cons] at hnodup
    simp only [List.map_cons, List.lookup_cons, beq_self_eq_true, Option.getD_some,
      List.cons.injEq, true_and]
    rw [← ih hnodup.2]
    apply List.map_congr_left
    intro k2 hk2
    have hne : (k2 == k) = false := by
      rw [beq_eq_false_iff_ne]
      rintro rfl
      exact hnodup.1 hk2
    simp [hne]

/-- With no array-index key, the enumeration order of an object is its creation order. -/
theorem ownKeysInOrder_of_no_index (keys : List String)
    (h : ∀ k ∈ keys, arrayIndex? k = none) : ownKeysInOrder keys = keys := by
  have h1 : indexKeysAscending keys = [] := by
    induction keys with
    | nil => rfl
    | cons k rest ih =>
      simp only [indexKeysAscending, h k (List.mem_cons_self _ _)]
      exact ih (fun k2 hk2 => h k2 (List.mem_cons_of_mem _ hk2))
  have h2 : keys.filter (fun k => (arrayIndex? k).isNone) = keys := by
    rw [List.filter_eq_self]
    intro k hk
    simp [h k hk]
  rw [ownKeysInOrder, h1, h2]
  rfl

/-- What `render` issues for `numberedLayers` on a canvas that never throws. -/
theorem renderCalls_numbered :
    renderCalls recorder numberedLayers () =
      [.resetCanvas, .drawSpheres (.array []),
       .drawLayer (.array [.number 2]), .drawLayer (.array [.number 1]),
       .drawGridLines "#eee", .drawBorder (.array []), .drawSphereNames (.array [])] := by
  rfl

/-- What `render` issues for `sampleSnapshot` on a canvas that never throws. -/
theorem renderCalls_sample :
    renderCalls recorder sampleSnapshot () =
      [.resetCanvas,
       .drawSpheres (.array [.object [("x", .number 2), ("y", .number 3), ("name", .string [65])]]),
       .drawLayer (.array [.number 1]),
       .drawLayer (.array [.number 2]),
       .drawGridLines "#eee",
       .drawBorder (.array [.number 0, .number 0, .number 10, .number 10]),
       .drawSphereNames (.array [.object [("x", .number 2), ("y", .number 3), ("name", .string [65])]])] := by
  rfl

/-! ## The claims -/

/-- C1, as amended: in every render the draw calls follow the order of the statements
of `render`, which is spheres → cells → grid lines → border → labels: `drawSpheres`
precedes every `drawLayer` call, every `drawLayer` call precedes `drawGridLines`, which
precedes `drawBorder`, which precedes `drawSphereNames`; and `drawSpheres` precedes
`drawGridLines`, `drawBorder` and `drawSphereNames` as well. -/
theorem C1_render_order {σ : Type} (gv : GridVisualization σ) (data : JSValue) (s : σ) :
    Precedes .drawSpheres .drawLayer (renderCalls gv data s) ∧
    Precedes .drawLayer .drawGridLines (renderCalls gv data s) ∧
    Precedes .drawGridLines .drawBorder (renderCalls gv data s) ∧
    Precedes .drawBorder .drawSphereNames (renderCalls gv data s) ∧
    Precedes .drawSpheres .drawGridLines (renderCalls gv data s) ∧
    Precedes .drawSpheres .drawBorder (renderCalls gv data s) ∧
    Precedes .drawSpheres .drawSphereNames (renderCalls gv data s) := by
  refine ⟨?_, ?_, ?_, ?_, ?_, ?_, ?_⟩ <;> exact render_precedes gv data s _ _ (by decide)

/-- C1, counterexample: on `sampleSnapshot`, with a canvas that never throws, the calls
do not follow cells → grid lines → border → spheres → labels: `drawBorder` is the sixth
call and `drawSpheres` the second. -/
theorem C1_spec_order_fails :
    ¬ (Precedes .drawLayer .drawGridLines (renderCalls recorder sampleSnapshot ()) ∧
       Precedes .drawGridLines .drawBorder (renderCalls recorder sampleSnapshot ()) ∧
       Precedes .drawBorder .drawSpheres (renderCalls recorder sampleSnapshot ()) ∧
       Precedes .drawSpheres .drawSphereNames (renderCalls recorder sampleSnapshot ())) := by
  rintro ⟨_, _, h, _⟩
  have h2 := h 5 1 (.drawBorder (.array [.number 0, .number 0, .number 10, .number 10]))
    (.drawSpheres (.array [.object [("x", .number 2), ("y", .number 3), ("name", .string [65])]]))
    (by rw [renderCalls_sample]; rfl) (by rw [renderCalls_sample]; rfl) rfl rfl
  omega

/-- C2: in every render, whatever the snapshot and whatever the canvas does, the first
call on `canvasDraw` is `resetCanvas` and no later call of that render is a
`resetCanvas`. -/
theorem C2_reset_first_once {σ : Type} (gv : GridVisualization σ) (data : JSValue) (s : σ) :
    ∃ rest, renderCalls gv data s = .resetCanvas :: rest ∧
      (∀ c ∈ rest, c.method ≠ .resetCanvas) ∧ callCount .resetCanvas (renderCalls gv data s) = 1 := by
  obtain ⟨rest, hrest, hpre⟩ := renderCalls_head gv data s
  have hno : ∀ c ∈ rest, c.method ≠ .resetCanvas := by
    intro c hc
    have hmem := hpre.subset hc
    simp only [List.mem_cons, List.mem_append, List.mem_map, List.mem_singleton] at hmem
    rcases hmem with rfl | ⟨v, _, rfl⟩ | rfl | rfl | rfl | h <;>
      first | (cases h) | (simp [Call.method])
  refine ⟨rest, hrest, hno, ?_⟩
  rw [hrest, callCount, List.countP_cons_of_pos _ _ (by simp [Call.method])]
  have hzero : List.countP (fun c => decide (c.method = Method.resetCanvas)) rest = 0 := by
    rw [List.countP_eq_zero]
    intro c hc
    simpa using hno c hc
  omega

/-- C6: in every render, every `drawLayer` call comes before the `drawGridLines` call;
moreover, when `drawGridLines` is called, all the layers of the snapshot (any number,
none included) have been drawn before it and no `drawLayer` call follows it. -/
theorem C6_gridlines_after_layers {σ : Type} (gv : GridVisualization σ) (data : JSValue)
    (s : σ) :
    Precedes .drawLayer .drawGridLines (renderCalls gv data s) ∧
    ∀ pre c post, renderCalls gv data s = pre ++ c :: post → c.method = .drawGridLines →
      layerArgs pre = layerValues data ∧ ∀ d ∈ post, d.method ≠ .drawLayer := by
  refine ⟨render_precedes gv data s _ _ (by decide), ?_⟩
  intro pre c post hsplit hc
  have hpre := renderCalls_initial gv data s
  rw [frameCalls_around_grid] at hpre
  obtain ⟨h1, _, h3⟩ := prefix_split_unique .drawGridLines _ _ _
    (by
      intro x hx
      simp only [List.mem_cons, List.mem_map] at hx
      rcases hx with rfl | rfl | ⟨v, _, rfl⟩ <;> simp [Call.method])
    (by
      intro x hx
      simp only [List.mem_cons, List.mem_singleton] at hx
      rcases hx with rfl | rfl | h <;> first | (cases h) | (simp [Call.method]))
    _ pre post c hpre hsplit hc
  constructor
  · rw [h1]
    show layerArgs ([Call.resetCanvas, Call.drawSpheres _] ++ _) = _
    rw [layerArgs_append, layerArgs_map_drawLayer]
    rfl
  · intro d hd
    have hmem := h3.subset hd
    simp only [List.mem_cons, List.mem_singleton] at hmem
    rcases hmem with rfl | rfl | h <;> first | (cases h) | (simp [Call.method])

/-- C6, witness: the render of `sampleSnapshot` on a canvas that never throws, split at
its `drawGridLines` call. -/
theorem C6_gridlines_after_layers_witness :
    layerArgs [.resetCanvas,
        .drawSpheres (.array [.object [("x", .number 2), ("y", .number 3), ("name", .string [65])]]),
        .drawLayer (.array [.number 1]), .drawLayer (.array [.number 2])]
      = layerValues sampleSnapshot ∧
    ∀ d ∈ [Call.drawBorder (.array [.number 0, .number 0, .number 10, .number 10]),
        Call.drawSphereNames
          (.array [.object [("x", .number 2), ("y", .number 3), ("name", .string [65])]])],
      d.method ≠ .drawLayer :=
  (C6_gridlines_after_layers recorder sampleSnapshot ()).2 _ (.drawGridLines "#eee") _
    renderCalls_sample rfl

/-- C7: in every render, every other call comes before the `drawSphereNames` call; when
`drawSphereNames` is called it is the last call of the render (nothing is drawn after
the labels) and a `drawSpheres` call has come before it. -/
theorem C7_labels_last {σ : Type} (gv : GridVisualization σ) (data : JSValue) (s : σ) :
    (∀ m : Method, m ≠ .drawSphereNames →
      Precedes m .drawSphereNames (renderCalls gv data s)) ∧
    ∀ pre c post, renderCalls gv data s = pre ++ c :: post → c.method = .drawSphereNames →
      post = [] ∧ ∃ d ∈ pre, d.method = .drawSpheres := by
  refine ⟨fun m hm => render_precedes gv data s _ _ (by cases m <;> simp_all [codeStage]), ?_⟩
  intro pre c post hsplit hc
  have hpre := renderCalls_initial gv data s
  rw [frameCalls_around_names] at hpre
  obtain ⟨h1, _, h3⟩ := prefix_split_unique .drawSphereNames _ _ _
    (by
      intro x hx
      simp only [List.mem_cons, List.mem_append, List.mem_map, List.mem_singleton] at hx
      rcases hx with rfl | rfl | ⟨v, _, rfl⟩ | rfl | rfl | h <;>
        first | (cases h) | (simp [Call.method]))
    (by intro x hx; cases hx)
    _ pre post c hpre hsplit hc
  refine ⟨List.prefix_nil.mp h3, .drawSpheres (propOrUndefined data "spheres"), ?_, rfl⟩
  rw [h1]
  simp

/-- C7, witness: the render of `sampleSnapshot` on a canvas that never throws, split at
its `drawSphereNames` call. -/
theorem C7_labels_last_witness :
    ([] : List Call) = [] ∧
    ∃ d ∈ [Call.resetCanvas,
        .drawSpheres (.array [.object [("x", .number 2), ("y", .number 3), ("name", .string [65])]]),
        .drawLayer (.array [.number 1]), .drawLayer (.array [.number 2]),
        .drawGridLines "#eee",
        .drawBorder (.array [.number 0, .number 0, .number 10, .number 10])],
      d.method = .drawSpheres :=
  (C7_labels_last recorder sampleSnapshot ()).2 _
    (.drawSphereNames (.array [.object [("x", .number 2), ("y", .number 3), ("name", .string [65])]]))
    [] renderCalls_sample rfl

/-- C10, as amended: for a snapshot that is not `null`/`undefined` and whose cells
collection enumerates `n` layers, when no draw operation fails, `render` returns and
issues exactly `n + 5` calls: `resetCanvas`, `drawSpheres` with the snapshot's spheres,
one `drawLayer` per layer, `drawGridLines` with `"#eee"`, `drawBorder` with the
snapshot's border, `drawSphereNames` with the same spheres; each of the five fixed
methods is called once and `drawLayer` `n` times. -/
theorem C10_render_calls {σ : Type} (gv : GridVisualization σ) (data : JSValue) (s : σ)
    (hd : data.isNullish = false) (hok : Succeeds gv (frameCalls data)) :
    renderReturns gv data s = true ∧
    renderCalls gv data s =
      [.resetCanvas, .drawSpheres (propOrUndefined data "spheres")]
        ++ (layerValues data).map Call.drawLayer
        ++ [.drawGridLines "#eee", .drawBorder (propOrUndefined data "border"),
            .drawSphereNames (propOrUndefined data "spheres")] ∧
    getProp data "spheres" = .ok (propOrUndefined data "spheres") ∧
    getProp data "border" = .ok (propOrUndefined data "border") ∧
    (renderCalls gv data s).length = (forInKeys (propOrUndefined data "cells")).length + 5 ∧
    callCount .resetCanvas (renderCalls gv data s) = 1 ∧
    callCount .drawSpheres (renderCalls gv data s) = 1 ∧
    callCount .drawGridLines (renderCalls gv data s) = 1 ∧
    callCount .drawBorder (renderCalls gv data s) = 1 ∧
    callCount .drawSphereNames (renderCalls gv data s) = 1 ∧
    callCount .drawLayer (renderCalls gv data s) =
      (forInKeys (propOrUndefined data "cells")).length := by
  obtain ⟨hret, hcalls⟩ := render_complete gv data s hd hok
  have hlen : (layerValues data).length = (forInKeys (propOrUndefined data "cells")).length := by
    simp [layerValues]
  refine ⟨hret, hcalls, getProp_ok_of_not_nullish _ _ hd, getProp_ok_of_not_nullish _ _ hd,
    ?_, ?_, ?_, ?_, ?_, ?_, ?_⟩
  · rw [hcalls, frameCalls]; simp [hlen]
  all_goals rw [hcalls, callCount_frameCalls]; simp [hlen]

/-- C10, witness: `sampleSnapshot` (two layers) on a canvas that never throws. -/
theorem C10_render_calls_witness :
    sampleSnapshot.isNullish = false ∧
    Succeeds recorder (frameCalls sampleSnapshot) ∧
    (renderCalls recorder sampleSnapshot ()).length =
      (forInKeys (propOrUndefined sampleSnapshot "cells")).length + 5 ∧
    callCount .drawLayer (renderCalls recorder sampleSnapshot ()) =
      (forInKeys (propOrUndefined sampleSnapshot "cells")).length :=
  ⟨rfl, recorder_succeeds _,
   (C10_render_calls recorder sampleSnapshot () rfl (recorder_succeeds _)).2.2.2.2.1,
   (C10_render_calls recorder sampleSnapshot () rfl (recorder_succeeds _)).2.2.2.2.2.2.2.2.2.2⟩

/-- C10, counterexample: on the snapshot `null`, with a canvas on which no draw
operation fails, `render` issues one call (`resetCanvas`) and throws, where the claim
has `0 + 5` calls. -/
theorem C10_null_snapshot :
    Succeeds recorder (frameCalls .null) ∧
    (forInKeys (propOrUndefined .null "cells")).length = 0 ∧
    renderCalls recorder .null () = [.resetCanvas] ∧
    renderReturns recorder .null () = false ∧
    (renderCalls recorder .null ()).length ≠
      (forInKeys (propOrUndefined .null "cells")).length + 5 ∧
    callCount .drawSpheres (renderCalls recorder .null ()) = 0 :=
  ⟨recorder_succeeds _, rfl, rfl, rfl, by decide, rfl⟩

/-- C5, as amended: for a snapshot that is not `null`/`undefined`, when no draw
operation fails, `render` calls `drawBorder` exactly once, with the snapshot's border
value; the call comes after `drawSpheres`, after every `drawLayer` call (all layers are
drawn by then) and after `drawGridLines`, and only `drawSphereNames` follows it. -/
theorem C5_border_once {σ : Type} (gv : GridVisualization σ) (data : JSValue) (s : σ)
    (hd : data.isNullish = false) (hok : Succeeds gv (frameCalls data)) :
    getProp data "border" = .ok (propOrUndefined data "border") ∧
    borderArgs (renderCalls gv data s) = [propOrUndefined data "border"] ∧
    callCount .drawBorder (renderCalls gv data s) = 1 ∧
    (∃ pre, renderCalls gv data s =
        pre ++ [.drawBorder (propOrUndefined data "border"),
                .drawSphereNames (propOrUndefined data "spheres")] ∧
      .drawSpheres (propOrUndefined data "spheres") ∈ pre ∧
      .drawGridLines "#eee" ∈ pre ∧
      layerArgs pre = layerValues data) ∧
    Precedes .drawSpheres .drawBorder (renderCalls gv data s) ∧
    Precedes .drawLayer .drawBorder (renderCalls gv data s) ∧
    Precedes .drawGridLines .drawBorder (renderCalls gv data s) ∧
    Precedes .drawBorder .drawSphereNames (renderCalls gv data s) := by
  obtain ⟨_, hcalls⟩ := render_complete gv data s hd hok
  refine ⟨getProp_ok_of_not_nullish _ _ hd, ?_, ?_, ?_,
    render_precedes gv data s _ _ (by decide), render_precedes gv data s _ _ (by decide),
    render_precedes gv data s _ _ (by decide), render_precedes gv data s _ _ (by decide)⟩
  · rw [hcalls, borderArgs_frameCalls]
  · rw [hcalls, callCount_frameCalls]; simp
  · refine ⟨.resetCanvas :: .drawSpheres (propOrUndefined data "spheres") ::
      ((layerValues data).map Call.drawLayer ++ [.drawGridLines "#eee"]), ?_, ?_, ?_, ?_⟩
    · rw [hcalls, frameCalls_around_border]
    · simp
    · simp
    · show layerArgs ([Call.resetCanvas, Call.drawSpheres _] ++ (_ ++ [Call.drawGridLines "#eee"])) = _
      rw [layerArgs_append, layerArgs_append, layerArgs_map_drawLayer]
      simp [layerArgs]

/-- C5, witness: `sampleSnapshot` on a canvas that never throws. -/
theorem C5_border_once_witness :
    sampleSnapshot.isNullish = false ∧
    Succeeds recorder (frameCalls sampleSnapshot) ∧
    borderArgs (renderCalls recorder sampleSnapshot ()) =
      [propOrUndefined sampleSnapshot "border"] ∧
    callCount .drawBorder (renderCalls recorder sampleSnapshot ()) = 1 :=
  ⟨rfl, recorder_succeeds _,
   (C5_border_once recorder sampleSnapshot () rfl (recorder_succeeds _)).2.1,
   (C5_border_once recorder sampleSnapshot () rfl (recorder_succeeds _)).2.2.1⟩

/-- C5, counterexample: on `sampleSnapshot`, with a canvas that never throws,
`drawBorder` does not come before `drawSpheres` (it is the sixth call, `drawSpheres`
the second); and on `brokenSnapshot`, where `drawLayer` throws on the first layer,
`drawBorder` is not called at all. -/
theorem C5_border_before_spheres_fails :
    ¬ Precedes .drawBorder .drawSpheres (renderCalls recorder sampleSnapshot ()) ∧
    borderArgs (renderCalls strictLayers brokenSnapshot ()) = [] := by
  refine ⟨?_, by rw [render_broken.2]; rfl⟩
  intro h
  have h2 := h 5 1 (.drawBorder (.array [.number 0, .number 0, .number 10, .number 10]))
    (.drawSpheres (.array [.object [("x", .number 2), ("y", .number 3), ("name", .string [65])]]))
    (by rw [renderCalls_sample]; rfl) (by rw [renderCalls_sample]; rfl) rfl rfl
  omega

/-- C3, as amended: for a snapshot whose cells collection is an object holding the
layers `L1..Ln` in that order under distinct names none of which is an array index (the
canonical decimal spelling of an integer below `2^32 - 1`), when no draw operation
fails, `render` calls `drawLayer` exactly `n` times, once with each layer's value, in
the caller-supplied order `L1..Ln`. -/
theorem C3_layers_in_caller_order {σ : Type} (gv : GridVisualization σ) (data : JSValue)
    (s : σ) (props : List (String × JSValue))
    (hcells : getProp data "cells" = .ok (.object props))
    (hnodup : (props.map Prod.fst).Nodup)
    (hnames : ∀ k ∈ props.map Prod.fst, arrayIndex? k = none)
    (hok : Succeeds gv (frameCalls data)) :
    layerArgs (renderCalls gv data s) = props.map Prod.snd ∧
    callCount .drawLayer (renderCalls gv data s) = props.length := by
  have hd := not_nullish_of_getProp_ok _ _ _ hcells
  obtain ⟨_, hcalls⟩ := render_complete gv data s hd hok
  have hc : propOrUndefined data "cells" = .object props := by
    rw [propOrUndefined, hcells]
  have hvals : layerValues data = props.map Prod.snd := by
    rw [layerValues, hc]
    simp only [forInKeys, ownKeysInOrder_of_no_index _ hnames, propOrUndefined, getProp]
    exact lookup_keys_of_nodup props hnodup
  constructor
  · rw [hcalls, frameCalls, layerArgs_append, layerArgs_append, layerArgs_map_drawLayer, hvals]
    simp [layerArgs]
  · rw [hcalls, callCount_frameCalls, hvals]; simp

/-- C3, witness: `sampleSnapshot`, whose layers are named `heat` and `occupancy`, on a
canvas that never throws. -/
theorem C3_layers_in_caller_order_witness :
    getProp sampleSnapshot "cells" =
      .ok (.object [("heat", .array [.number 1]), ("occupancy", .array [.number 2])]) ∧
    ["heat", "occupancy"].Nodup ∧
    (∀ k ∈ ["heat", "occupancy"], arrayIndex? k = none) ∧
    Succeeds recorder (frameCalls sampleSnapshot) ∧
    layerArgs (renderCalls recorder sampleSnapshot ()) =
      [.array [.number 1], .array [.number 2]] ∧
    callCount .drawLayer (renderCalls recorder sampleSnapshot ()) = 2 :=
  ⟨rfl, by decide, by decide, recorder_succeeds _,
   C3_layers_in_caller_order recorder sampleSnapshot ()
    [("heat", .array [.number 1]), ("occupancy", .array [.number 2])] rfl (by decide)
    (by decide) (recorder_succeeds _)⟩

/-- C3, counterexample: in `numberedLayers` the caller lists the layer `terrain` (value
`[1]`) before the layer `0` (value `[2]`), yet `render`, on a canvas that never
throws, draws `[2]` first and `[1]` second; and on `brokenSnapshot`, which has two
layers, `drawLayer` is called once only, because that call throws. -/
theorem C3_caller_order_fails :
    getProp numberedLayers "cells" =
      .ok (.object [("terrain", .array [.number 1]), ("0", .array [.number 2])]) ∧
    layerArgs (renderCalls recorder numberedLayers ()) =
      [.array [.number 2], .array [.number 1]] ∧
    layerArgs (renderCalls recorder numberedLayers ()) ≠
      [.array [.number 1], .array [.number 2]] ∧
    layerArgs (renderCalls strictLayers brokenSnapshot ()) = [.null] := by
  refine ⟨rfl, by rw [renderCalls_numbered]; rfl, ?_, by rw [render_broken.2]; rfl⟩
  rw [renderCalls_numbered]
  simp [layerArgs]

/-- C4, as amended: `render` handles no error.  For a snapshot that is not
`null`/`undefined`: when no draw operation fails it returns normally, having issued the
whole frame; when the calls before some call of the frame return and that call throws,
`render` throws that same error, the failing call is the last one it issues and the
remaining calls of the frame are not made; and `render` throws in no other way.  On
`null` or `undefined` it throws after `resetCanvas`. -/
theorem C4_render_propagates {σ : Type} (gv : GridVisualization σ) (data : JSValue) (s : σ) :
    (data.isNullish = false → Succeeds gv (frameCalls data) →
      renderReturns gv data s = true ∧ renderCalls gv data s = frameCalls data) ∧
    (data.isNullish = true →
      renderReturns gv data s = false ∧ renderCalls gv data s = [.resetCanvas]) ∧
    (∀ pre c post s1 e, data.isNullish = false → frameCalls data = pre ++ c :: post →
      runCanvas gv pre s = .ok s1 → gv.perform c s1 = .error e →
      (render gv data s).1 = .error e ∧ renderReturns gv data s = false ∧
        renderCalls gv data s = pre ++ [c]) ∧
    (∀ e, data.isNullish = false → (render gv data s).1 = .error e →
      ∃ pre c post, frameCalls data = pre ++ c :: post ∧
        renderCalls gv data s = pre ++ [c] ∧
        gv.perform c (render gv data s).2.canvas = .error e) := by
  refine ⟨render_complete gv data s, fun hd => ?_, fun pre c post s1 e hd hsplit hpre hc => ?_,
    fun e hd he => ?_⟩
  · exact ⟨(render_nullish gv data s hd).2, (render_nullish gv data s hd).1⟩
  · have hrun := invokeAll_stops gv pre post c { data := data, calls := [], canvas := s } s1 e
      hpre hc
    rw [← hsplit, ← render_eq gv data s hd] at hrun
    refine ⟨by rw [hrun], by rw [renderReturns, hrun], by rw [renderCalls, hrun]; simp⟩
  · rw [render_eq gv data s hd] at he
    obtain ⟨pre, c, post, h1, h2, h3⟩ := invokeAll_error gv (frameCalls data) _ e he
    refine ⟨pre, c, post, h1, ?_, ?_⟩
    · rw [renderCalls, render_eq gv data s hd, h2]; simp
    · rw [render_eq gv data s hd]; exact h3

/-- C4, witness: `sampleSnapshot` on a canvas that never throws; `null`; and
`brokenSnapshot` on a canvas whose `drawLayer` rejects a `null` layer, in both
directions. -/
theorem C4_render_propagates_witness :
    (sampleSnapshot.isNullish = false ∧
      Succeeds recorder (frameCalls sampleSnapshot) ∧
      renderReturns recorder sampleSnapshot () = true ∧
      renderCalls recorder sampleSnapshot () = frameCalls sampleSnapshot) ∧
    (JSValue.null.isNullish = true ∧
      renderReturns recorder .null () = false ∧ renderCalls recorder .null () = [.resetCanvas]) ∧
    (brokenSnapshot.isNullish = false ∧
      frameCalls brokenSnapshot =
        [.resetCanvas, .drawSpheres (.array [])] ++ Call.drawLayer .null ::
          [.drawLayer (.array [.number 2]), .drawGridLines "#eee",
           .drawBorder (.array [.number 0, .number 0, .number 10, .number 10]),
           .drawSphereNames (.array [])] ∧
      runCanvas strictLayers [.resetCanvas, .drawSpheres (.array [])] () = .ok () ∧
      strictLayers.perform (.drawLayer .null) () = .error (.thrown "layer is not iterable") ∧
      (render strictLayers brokenSnapshot ()).1 = .error (.thrown "layer is not iterable") ∧
      renderReturns strictLayers brokenSnapshot () = false ∧
      renderCalls strictLayers brokenSnapshot () =
        [.resetCanvas, .drawSpheres (.array [])] ++ [.drawLayer .null]) ∧
    (brokenSnapshot.isNullish = false ∧
      (render strictLayers brokenSnapshot ()).1 = .error (.thrown "layer is not iterable") ∧
      ∃ pre c post, frameCalls brokenSnapshot = pre ++ c :: post ∧
        renderCalls strictLayers brokenSnapshot () = pre ++ [c] ∧
        strictLayers.perform c (render strictLayers brokenSnapshot ()).2.canvas =
          .error (.thrown "layer is not iterable")) :=
  ⟨⟨rfl, recorder_succeeds _,
    (C4_render_propagates recorder sampleSnapshot ()).1 rfl (recorder_succeeds _)⟩,
   ⟨rfl, (C4_render_propagates recorder .null ()).2.1 rfl⟩,
   ⟨rfl, rfl, rfl, rfl,
    (C4_render_propagates strictLayers brokenSnapshot ()).2.2.1
      [.resetCanvas, .drawSpheres (.array [])] (.drawLayer .null) _ () _ rfl rfl rfl rfl⟩,
   ⟨rfl, rfl, (C4_render_propagates strictLayers brokenSnapshot ()).2.2.2 _ rfl rfl⟩⟩

/-- C4, counterexample: on `brokenSnapshot`, with a canvas whose `drawLayer` throws on
the `null` layer, `render` does not return normally, and the calls stop at the failing
`drawLayer`: the second layer, the grid lines, the border and the labels are not drawn. -/
theorem C4_render_raises :
    renderReturns strictLayers brokenSnapshot () = false ∧
    (render strictLayers brokenSnapshot ()).1 = .error (.thrown "layer is not iterable") ∧
    renderCalls strictLayers brokenSnapshot () =
      [.resetCanvas, .drawSpheres (.array []), .drawLayer .null] ∧
    frameCalls brokenSnapshot =
      [.resetCanvas, .drawSpheres (.array []), .drawLayer .null,
       .drawLayer (.array [.number 2]), .drawGridLines "#eee",
       .drawBorder (.array [.number 0, .number 0, .number 10, .number 10]),
       .drawSphereNames (.array [])] :=
  ⟨rfl, rfl, rfl, rfl⟩

/-- C8: whatever four values the constructor is given, `new InteractionHandler` and
`new GridVisualization` receive them as their first four arguments, in the same order:
the two components are built with the same dimensions, those of the `CanvasModule`. -/
theorem C8_same_dimensions {P G : Type} (canvas_width canvas_height : P)
    (grid_width grid_height : G) :
    (CanvasModule.new canvas_width canvas_height grid_width grid_height).interactionHandler.dimensions
      = (canvas_width, canvas_height, grid_width, grid_height) ∧
    (CanvasModule.new canvas_width canvas_height grid_width grid_height).canvasDraw.dimensions
      = (canvas_width, canvas_height, grid_width, grid_height) ∧
    (CanvasModule.new canvas_width canvas_height grid_width grid_height).canvasDraw.dimensions
      = (CanvasModule.new canvas_width canvas_height grid_width
          grid_height).interactionHandler.dimensions ∧
    (CanvasModule.new canvas_width canvas_height grid_width
        grid_height).canvasDraw.interactionHandler
      = (CanvasModule.new canvas_width canvas_height grid_width grid_height).interactionHandler :=
  ⟨rfl, rfl, rfl, rfl⟩

theorem floor_center (w : ℚ) (hw : 0 < w) (i : ℤ) : ⌊((i : ℚ) * w + w / 2) / w⌋ = i := by
  have h : ((i : ℚ) * w + w / 2) / w = (i : ℚ) + 1 / 2 := by
    field_simp
    ring
  rw [h, Int.floor_eq_iff]
  constructor <;> linarith

theorem clampIndex_of_mem (count i : ℤ) (h0 : 0 ≤ i) (h1 : i < count) : clampIndex count i = i := by
  unfold clampIndex
  rw [min_eq_right (by omega), max_eq_right h0]

/-- C9: for positive pixel sizes and positive cell counts, and every cell `(col, row)`
of the grid, the pixel-to-cell mapping of the `InteractionHandler` that `CanvasModule`
builds, applied to the pixel centre of the cell under the forward transform of the
`GridVisualization` that `CanvasModule` builds, returns `(col, row)`. -/
theorem C9_round_trip (canvas_width canvas_height : ℚ) (grid_width grid_height col row : ℤ)
    (hw : 0 < canvas_width) (hh : 0 < canvas_height)
    (hgw : 0 < grid_width) (hgh : 0 < grid_height)
    (hcol0 : 0 ≤ col) (hcol : col < grid_width) (hrow0 : 0 ≤ row) (hrow : row < grid_height) :
    pixelToCell (CanvasModule.new canvas_width canvas_height grid_width grid_height).interactionHandler
      (cellToPixelCenter
        (CanvasModule.new canvas_width canvas_height grid_width grid_height).canvasDraw col row)
      = (col, row) := by
  have hcw : (0 : ℚ) < canvas_width / grid_width := div_pos hw (by exact_mod_cast hgw)
  have hch : (0 : ℚ) < canvas_height / grid_height := div_pos hh (by exact_mod_cast hgh)
  simp only [pixelToCell, cellToPixelCenter, CanvasModule.new]
  rw [floor_center _ hcw, floor_center _ hch, clampIndex_of_mem _ _ hcol0 hcol,
    clampIndex_of_mem _ _ hrow0 hrow]

/-- C9, witness: the 10 × 10 grid on a 500 × 500 canvas, cell `(2, 3)`. -/
theorem C9_round_trip_witness :
    ((0 : ℚ) < 500 ∧ (0 : ℤ) < 10 ∧ (0 : ℤ) ≤ 2 ∧ (2 : ℤ) < 10 ∧ (0 : ℤ) ≤ 3 ∧ (3 : ℤ) < 10) ∧
    pixelToCell (CanvasModule.new (500 : ℚ) 500 (10 : ℤ) 10).interactionHandler
      (cellToPixelCenter (CanvasModule.new (500 : ℚ) 500 (10 : ℤ) 10).canvasDraw 2 3)
      = (2, 3) :=
  ⟨⟨by norm_num, by decide, by decide, by decide, by decide, by decide⟩,
   C9_round_trip 500 500 10 10 2 3 (by norm_num) (by norm_num) (by decide) (by decide)
    (by decide) (by decide) (by decide) (by decide)⟩

end BorderModel
